import Mathlib

/-!
Verification of the UIS Streamlit dashboard (`src/UIS_app.py`).

The development shallowly embeds the app's core logic:
* a token-level model of the Python grammar rule that makes line 4
  (`pip install plotly`) a syntax error,
* the data-loading merge (`load_data`, pandas left join on the normalized
  `INDICATOR_ID` key),
* the navigation state machine (`PARENTS`, `show_back_button`, `main`'s
  dispatch chain),
* the country/indicator filters and the bar-chart group-by-mean aggregation.

Tables are lists of records; pandas column operations become list
operations; machine floats are modelled as exact rationals.
-/

namespace UIS

/-! ### Python surface syntax model (for the `pip install plotly` line)

Modelled from the Python language specification: in every valid Python
statement, two adjacent NAME tokens are only possible when at least one of
them is a keyword, or the first is a soft keyword (`match`, `case`, `type`,
`_`).  A logical line containing two adjacent plain identifiers, the first
of which is not a soft keyword, is rejected by the parser.  CPython
compiles a whole module before executing any of it, so a syntax error
anywhere aborts the load before any statement runs. -/

/-- Python tokens relevant to the lines we transcribe: identifiers,
operators/punctuation, and string literals. -/
inductive PyTok where
  | ident (s : String)
  | punct (s : String)
  | strLit (s : String)
deriving DecidableEq

/-- The reserved keywords of Python 3. -/
def pyKeywords : List String :=
  ["False", "None", "True", "and", "as", "assert", "async", "await",
   "break", "class", "continue", "def", "del", "elif", "else", "except",
   "finally", "for", "from", "global", "if", "import", "in", "is",
   "lambda", "nonlocal", "not", "or", "pass", "raise", "return", "try",
   "while", "with", "yield"]

/-- The soft keywords of Python 3 (may start a statement followed by a
plain identifier). -/
def pySoftKeywords : List String := ["match", "case", "type", "_"]

/-- Two adjacent tokens that no valid Python line may contain: two plain
identifiers where neither is a keyword and the first is not a soft
keyword. -/
def invalidAdjacency : PyTok → PyTok → Bool
  | PyTok.ident a, PyTok.ident b =>
      !(pyKeywords.contains a) && !(pyKeywords.contains b) &&
        !(pySoftKeywords.contains a)
  | _, _ => false

/-- Does a logical line contain an invalid adjacent identifier pair
(hence fail to parse)? -/
def lineRejected : List PyTok → Bool
  | [] => false
  | [_] => false
  | a :: b :: rest => invalidAdjacency a b || lineRejected (b :: rest)

/-- Line 1 of `UIS_app.py`: `import streamlit as st`. -/
def line1 : List PyTok :=
  [PyTok.ident "import", PyTok.ident "streamlit", PyTok.ident "as",
   PyTok.ident "st"]

/-- Line 2 of `UIS_app.py`:
`st.set_page_config(page_title="Analysis App", layout="wide")`. -/
def line2 : List PyTok :=
  [PyTok.ident "st", PyTok.punct ".", PyTok.ident "set_page_config",
   PyTok.punct "(", PyTok.ident "page_title", PyTok.punct "=",
   PyTok.strLit "Analysis App", PyTok.punct ",", PyTok.ident "layout",
   PyTok.punct "=", PyTok.strLit "wide", PyTok.punct ")"]

/-- Line 4 of `UIS_app.py`: the bare statement `pip install plotly`. -/
def line4 : List PyTok :=
  [PyTok.ident "pip", PyTok.ident "install", PyTok.ident "plotly"]

/-- Line 5 of `UIS_app.py`: `import pandas as pd`. -/
def line5 : List PyTok :=
  [PyTok.ident "import", PyTok.ident "pandas", PyTok.ident "as",
   PyTok.ident "pd"]

/-- Line 6 of `UIS_app.py`: `import plotly.express as px`. -/
def line6 : List PyTok :=
  [PyTok.ident "import", PyTok.ident "plotly", PyTok.punct ".",
   PyTok.ident "express", PyTok.ident "as", PyTok.ident "px"]

/-- The opening logical lines of the module, numbered as in the file
(line 3 is blank and produces no logical line). -/
def moduleHead : List (Nat × List PyTok) :=
  [(1, line1), (2, line2), (4, line4), (5, line5), (6, line6)]

/-- The first line number at which the parser rejects the module, if
any. -/
def firstBadLine (lines : List (Nat × List PyTok)) : Option Nat :=
  (lines.find? (fun l => lineRejected l.2)).map (fun l => l.1)

/-- Modelled from CPython's import semantics: the whole module is compiled
before anything executes, so a rejected line aborts the load with a syntax
error (returned as the offending line number) and no statement of the
module ever runs. -/
def loadModule (lines : List (Nat × List PyTok)) : Except Nat Unit :=
  match firstBadLine lines with
  | some n => Except.error n
  | none => Except.ok ()

/-! ### Data model and `load_data`

`UIS_app.py` lines 47-59: read the observation CSV and the metadata CSV,
drop `indicator_desc`, rename `indicator_id` to `INDICATOR_ID`, normalize
it with `.str.upper().str.strip()`, and left-merge with the metadata on
`INDICATOR_ID`. -/

/-- A row of `UNESCO_edu_data.csv` as used by the app (`indicator_id`,
the dropped free-text `indicator_desc`, `country_id`, `year`, `value`). -/
structure RawObsRow where
  indicator_id : String
  indicator_desc : String
  country_id : String
  year : Int
  value : ℚ
deriving DecidableEq

/-- A row of `SDG_METADATA.csv` restricted to the columns the app uses. -/
structure MetaRow where
  INDICATOR_ID : String
  INDICATOR_LABEL_EN : String
deriving DecidableEq

/-- A row of the merged table produced by `load_data` (the label is
`none` when the left join found no metadata match). -/
structure MergedRow where
  INDICATOR_ID : String
  country_id : String
  year : Int
  value : ℚ
  INDICATOR_LABEL_EN : Option String
deriving DecidableEq

/-- Python `str.strip()` on a character list: drop whitespace from both
ends. -/
def pyStripChars (l : List Char) : List Char :=
  ((l.dropWhile Char.isWhitespace).reverse.dropWhile Char.isWhitespace).reverse

/-- Pandas `.str.upper().str.strip()` from line 55 of the source:
upper-case every character, then strip surrounding whitespace. -/
def pyUpperStrip (s : String) : String :=
  String.mk (pyStripChars (s.data.map Char.toUpper))

/-- The rows a single observation row contributes to the pandas left
merge of line 58: one row per matching metadata row, or a single
label-less row when there is no match. -/
def mergeRow (metadata : List MetaRow) (r : RawObsRow) : List MergedRow :=
  let key := pyUpperStrip r.indicator_id
  match metadata.filter (fun x => x.INDICATOR_ID == key) with
  | [] => [⟨key, r.country_id, r.year, r.value, none⟩]
  | ms => ms.map (fun x =>
      ⟨key, r.country_id, r.year, r.value, some x.INDICATOR_LABEL_EN⟩)

/-- Function `load_data` (lines 47-59): normalize the observation table's
indicator ids and left-merge with the metadata on `INDICATOR_ID`,
keeping every observation row. Dropping `indicator_desc` and the rename
are reflected in the `MergedRow` fields. -/
def load_data (data : List RawObsRow) (metadata : List MetaRow) :
    List MergedRow :=
  data.flatMap (mergeRow metadata)

/-! ### Navigation state machine (lines 67-80, 318-336) -/

/-- The static parent map `PARENTS` (lines 67-74). -/
def PARENTS : List (String × String) :=
  [("Nepal", "individual"), ("Estonia", "individual"),
   ("Sierra Leone", "individual"), ("USA", "individual"),
   ("individual", "home"), ("cross", "home")]

/-- Dictionary lookup `PARENTS[page]`; `none` models a Python
`KeyError`. -/
def parentsLookup (page : String) : Option String :=
  (PARENTS.find? (fun x => x.1 == page)).map (fun x => x.2)

/-- The page key initialized on first render (line 320). -/
def initialPage : String := "home"

/-- A destination button handler (`st.session_state.page = dest`): sets
the current page unconditionally, with no validation. -/
def goto (_cur : String) (dest : String) : String := dest

/-- Pressing Go Back (`show_back_button`, lines 76-80): on `home` the
button is not shown, so the state is unchanged; elsewhere the state
becomes `PARENTS[page]` (`none` models the unreachable `KeyError`). -/
def backAction (page : String) : Option String :=
  if page == "home" then some page else parentsLookup page

/-- The fixed set of pages reachable through the app's buttons, i.e. the
pages `main`'s dispatch chain knows (lines 323-336). -/
def knownPages : List String :=
  ["home", "individual", "cross", "Nepal", "Estonia", "Sierra Leone", "USA"]

/-- The `if/elif` dispatch chain of `main` (lines 323-336): the name of
the page function invoked, or `none` when the page value matches no
branch (nothing is rendered, no error is raised). -/
def dispatch (page : String) : Option String :=
  if page == "home" then some "show_home"
  else if page == "individual" then some "show_individual"
  else if page == "cross" then some "show_cross"
  else if page == "Nepal" then some "show_nepal"
  else if page == "Estonia" then some "show_estonia"
  else if page == "Sierra Leone" then some "show_sierra_leone"
  else if page == "USA" then some "show_usa"
  else none

/-! ### Query/filter layer -/

/-- Pandas `drop_duplicates()` keeping first occurrences: auxiliary
recursion carrying the set of rows already emitted. -/
def dropDupsAux {α : Type} [DecidableEq α] (seen : List α) :
    List α → List α
  | [] => []
  | a :: l =>
      if a ∈ seen then dropDupsAux seen l
      else a :: dropDupsAux (a :: seen) l

/-- Pandas `drop_duplicates()`: collapse exact duplicate rows, keeping
the first occurrence of each. -/
def drop_duplicates {α : Type} [DecidableEq α] (l : List α) : List α :=
  dropDupsAux [] l

/-- Boolean-mask row selection `label_data[label_data['country_id'] ==
country_code]` (line 91). -/
def filterByCountry (table : List MergedRow) (code : String) :
    List MergedRow :=
  table.filter (fun r => r.country_id == code)

/-- Line 92: `df[['INDICATOR_ID', 'INDICATOR_LABEL_EN']]
.drop_duplicates().sort_values('INDICATOR_ID')` — the distinct
(id, label) pairs for the country, sorted ascending by id. -/
def unique_indicators (table : List MergedRow) (code : String) :
    List (String × Option String) :=
  List.insertionSort (fun a b => a.1 ≤ b.1)
    (drop_duplicates
      ((filterByCountry table code).map
        (fun r => (r.INDICATOR_ID, r.INDICATOR_LABEL_EN))))

/-- Line 209: `label_data[label_data["INDICATOR_ID"] ==
selected_indicator].drop_duplicates()`. -/
def filterByIndicator (table : List MergedRow) (indicatorId : String) :
    List MergedRow :=
  drop_duplicates (table.filter (fun r => r.INDICATOR_ID == indicatorId))

/-- Lexicographic order on `(year, country_id)` group keys, the order
pandas `groupby` emits groups in. -/
abbrev keyLE (a b : Int × String) : Prop :=
  a.1 < b.1 ∨ (a.1 = b.1 ∧ a.2 ≤ b.2)

/-- The distinct `(year, country_id)` group keys of the rows, in the
sorted order `groupby(["year", "country_id"])` produces. -/
def groupKeys (rows : List MergedRow) : List (Int × String) :=
  List.insertionSort keyLE
    (drop_duplicates (rows.map (fun r => (r.year, r.country_id))))

/-- The `value` column of the rows belonging to one group key. -/
def valuesFor (rows : List MergedRow) (k : Int × String) : List ℚ :=
  (rows.filter (fun r => (r.year, r.country_id) == k)).map
    (fun r => r.value)

/-- Arithmetic mean of a list of values (pandas `.mean()`). -/
def mean (vs : List ℚ) : ℚ := vs.foldr (· + ·) 0 / (vs.length : ℚ)

/-- Line 273: `df.groupby(["year", "country_id"])["value"].mean()
.reset_index()` — one `(year, country_id, mean value)` row per group. -/
def df_bar (rows : List MergedRow) : List (Int × String × ℚ) :=
  (groupKeys rows).map (fun k => (k.1, k.2, mean (valuesFor rows k)))

/-! ### Individual-country chart (lines 85-141, 291-313) -/

/-- Outcome of `create_line_chart_with_selection`: either the
`st.warning` / `return None` branch for an empty selection, or a chart
over the filtered rows. -/
inductive ChartResult where
  | noSelection : ChartResult
  | chart (rows : List MergedRow) : ChartResult
deriving DecidableEq

/-- Function `create_line_chart_with_selection` (lines 85-141) with the
multiselect's result made explicit: filter the table to the country; if
the selection is empty, warn and return `None`; otherwise chart the rows
whose indicator is selected. -/
def create_line_chart_with_selection (table : List MergedRow)
    (country_code : String) (selected_indicators : List String) :
    ChartResult :=
  let df := table.filter (fun r => r.country_id == country_code)
  if selected_indicators.isEmpty then ChartResult.noSelection
  else ChartResult.chart
    (df.filter (fun r => selected_indicators.contains r.INDICATOR_ID))

/-- Function `show_nepal` (lines 291-295): render the chart only when the figure
is not `None`; `none` means no chart was handed to `st.plotly_chart`. -/
def show_nepal (table : List MergedRow) (selected : List String) :
    Option (List MergedRow) :=
  match create_line_chart_with_selection table "NPL" selected with
  | ChartResult.noSelection => none
  | ChartResult.chart rows => some rows

/-! ### Explicit-state wrappers (frame property)

The merged table is module-level state (`label_data`, line 62).  Each
query below threads that state explicitly, so "reading never mutates the
table" is a statement about the embedded operations, mirroring that the
source never rebinds or mutates `label_data` after load. -/

/-- The app's session state: the cached merged table and the current
page. -/
structure AppState where
  label_data : List MergedRow
  page : String
deriving DecidableEq

/-- Country filter as a state transformer (line 91 reads
`label_data`). -/
def filterByCountryOp (code : String) (s : AppState) :
    List MergedRow × AppState :=
  (filterByCountry s.label_data code, s)

/-- Indicator-option derivation as a state transformer (lines 92-95). -/
def uniqueIndicatorsOp (code : String) (s : AppState) :
    List (String × Option String) × AppState :=
  (unique_indicators s.label_data code, s)

/-- Indicator filter as a state transformer (line 209). -/
def filterByIndicatorOp (indicatorId : String) (s : AppState) :
    List MergedRow × AppState :=
  (filterByIndicator s.label_data indicatorId, s)

/-- Bar-chart aggregation as a state transformer (line 273). -/
def barAggregationOp (indicatorId : String) (s : AppState) :
    List (Int × String × ℚ) × AppState :=
  (df_bar (filterByIndicator s.label_data indicatorId), s)

/-! ### Order instances and concrete example tables -/

instance : IsTotal (String × Option String) (fun a b => a.1 ≤ b.1) :=
  ⟨fun a b => le_total a.1 b.1⟩

instance : IsTrans (String × Option String) (fun a b => a.1 ≤ b.1) :=
  ⟨fun _ _ _ h1 h2 => le_trans h1 h2⟩

/-- A small metadata table (one row per indicator id) used as a concrete
input. -/
def mTest : List MetaRow :=
  [⟨"NER.02.CP", "Net enrolment"⟩, ⟨"ROFST.H.3", "Out of school"⟩]

/-- A small observation table used as a concrete input: two rows whose
ids normalize to metadata entries and one row with no metadata match. -/
def dTest : List RawObsRow :=
  [⟨" ner.02.cp ", "desc", "NPL", 2010, 10⟩,
   ⟨"rofst.h.3", "desc", "USA", 2011, 5⟩,
   ⟨"ZZZ", "desc", "NPL", 2012, 7⟩]

end UIS

namespace UIS

/-! ### Helper lemmas -/

theorem mem_dropDupsAux {α : Type} [DecidableEq α] (seen l : List α) (x : α) :
    x ∈ dropDupsAux seen l ↔ x ∈ l ∧ x ∉ seen := by
  induction l generalizing seen with
  | nil => simp [dropDupsAux]
  | cons a l ih =>
    by_cases h : a ∈ seen
    · rw [dropDupsAux, if_pos h, ih, List.mem_cons]
      constructor
      · rintro ⟨hx, hns⟩
        exact ⟨Or.inr hx, hns⟩
      · rintro ⟨rfl | hx, hns⟩
        · exact absurd h hns
        · exact ⟨hx, hns⟩
    · rw [dropDupsAux, if_neg h, List.mem_cons, ih, List.mem_cons, List.mem_cons]
      constructor
      · rintro (rfl | ⟨hx, hns⟩)
        · exact ⟨Or.inl rfl, h⟩
        · exact ⟨Or.inr hx, fun hs => hns (Or.inr hs)⟩
      · rintro ⟨rfl | hx, hns⟩
        · exact Or.inl rfl
        · by_cases hxa : x = a
          · exact Or.inl hxa
          · exact Or.inr ⟨hx, fun hs => hs.elim hxa hns⟩
  
theorem nodup_dropDupsAux {α : Type} [DecidableEq α] (seen l : List α) :
    (dropDupsAux seen l).Nodup := by
  induction l generalizing seen with
  | nil => simp [dropDupsAux]
  | cons a l ih =>
    by_cases h : a ∈ seen
    · rw [dropDupsAux, if_pos h]
      exact ih seen
    · rw [dropDupsAux, if_neg h, List.nodup_cons]
      refine ⟨fun hmem => ?_, ih (a :: seen)⟩
      rw [mem_dropDupsAux] at hmem
      exact hmem.2 (List.mem_cons_self a seen)

theorem mem_drop_duplicates {α : Type} [DecidableEq α] (l : List α) (x : α) :
    x ∈ drop_duplicates l ↔ x ∈ l := by
  simp [drop_duplicates, mem_dropDupsAux]

theorem nodup_drop_duplicates {α : Type} [DecidableEq α] (l : List α) :
    (drop_duplicates l).Nodup :=
  nodup_dropDupsAux [] l

theorem mem_mergeRow_fields {m : List MetaRow} {r : RawObsRow} {row : MergedRow}
    (h : row ∈ mergeRow m r) :
    row.INDICATOR_ID = pyUpperStrip r.indicator_id ∧
      row.country_id = r.country_id ∧ row.year = r.year ∧
      row.value = r.value := by
  simp only [mergeRow] at h
  cases hf : m.filter (fun x => x.INDICATOR_ID == pyUpperStrip r.indicator_id) with
  | nil =>
    rw [hf] at h
    simp at h
    subst h
    exact ⟨rfl, rfl, rfl, rfl⟩
  | cons y ys =>
    rw [hf] at h
    rw [List.mem_map] at h
    obtain ⟨x, hx, hrow⟩ := h
    rw [← hrow]
    exact ⟨rfl, rfl, rfl, rfl⟩

theorem mergeRow_label {m : List MetaRow} {r : RawObsRow} {row : MergedRow}
    (h : row ∈ mergeRow m r) :
    (row.INDICATOR_LABEL_EN = none ∧
      ∀ mr ∈ m, mr.INDICATOR_ID ≠ pyUpperStrip r.indicator_id) ∨
    (∃ mr ∈ m, mr.INDICATOR_ID = pyUpperStrip r.indicator_id ∧
      row.INDICATOR_LABEL_EN = some mr.INDICATOR_LABEL_EN) := by
  simp only [mergeRow] at h
  cases hf : m.filter (fun x => x.INDICATOR_ID == pyUpperStrip r.indicator_id) with
  | nil =>
    rw [hf] at h
    simp at h
    subst h
    refine Or.inl ⟨rfl, fun mr hmr heq => ?_⟩
    have := List.filter_eq_nil_iff.mp hf mr hmr
    simp [heq] at this
  | cons y ys =>
    rw [hf] at h
    rw [List.mem_map] at h
    obtain ⟨x, hx, hrow⟩ := h
    have hxf : x ∈ m.filter (fun x => x.INDICATOR_ID == pyUpperStrip r.indicator_id) := by
      rw [hf]
      exact hx
    rw [List.mem_filter] at hxf
    exact Or.inr ⟨x, hxf.1, by simpa using hxf.2, by rw [← hrow]⟩

theorem mergeRow_exists (m : List MetaRow) (r : RawObsRow) :
    ∃ row ∈ mergeRow m r,
      row.INDICATOR_ID = pyUpperStrip r.indicator_id ∧
      row.country_id = r.country_id ∧ row.year = r.year ∧
      row.value = r.value := by
  simp only [mergeRow]
  cases hf : m.filter (fun x => x.INDICATOR_ID == pyUpperStrip r.indicator_id) with
  | nil =>
    exact ⟨⟨pyUpperStrip r.indicator_id, r.country_id, r.year, r.value, none⟩,
      List.mem_singleton.mpr rfl, rfl, rfl, rfl, rfl⟩
  | cons y ys =>
    refine ⟨⟨pyUpperStrip r.indicator_id, r.country_id, r.year, r.value,
      some y.INDICATOR_LABEL_EN⟩, ?_, rfl, rfl, rfl, rfl⟩
    exact List.mem_map.mpr ⟨y, List.mem_cons_self y ys, rfl⟩

theorem length_filter_key_le_one {m : List MetaRow}
    (h : (m.map (fun x => x.INDICATOR_ID)).Nodup) (k : String) :
    (m.filter (fun x => x.INDICATOR_ID == k)).length ≤ 1 := by
  induction m with
  | nil => simp
  | cons a m ih =>
    rw [List.map_cons, List.nodup_cons] at h
    by_cases ha : a.INDICATOR_ID = k
    · rw [List.filter_cons_of_pos (by simpa using ha)]
      have hnil : m.filter (fun x => x.INDICATOR_ID == k) = [] := by
        rw [List.filter_eq_nil_iff]
        intro x hx hbeq
        have hxk : x.INDICATOR_ID = k := by simpa using hbeq
        exact h.1 (List.mem_map.mpr ⟨x, hx, by rw [hxk, ha]⟩)
      rw [hnil]
      simp
    · rw [List.filter_cons_of_neg (by simpa using ha)]
      exact ih h.2

theorem mergeRow_length {m : List MetaRow}
    (h : (m.map (fun x => x.INDICATOR_ID)).Nodup) (r : RawObsRow) :
    (mergeRow m r).length = 1 := by
  simp only [mergeRow]
  cases hf : m.filter (fun x => x.INDICATOR_ID == pyUpperStrip r.indicator_id) with
  | nil => rfl
  | cons y ys =>
    have hle := length_filter_key_le_one h (pyUpperStrip r.indicator_id)
    rw [hf] at hle
    simp only [List.length_cons] at hle
    have : ys = [] := List.length_eq_zero.mp (Nat.le_zero.mp (Nat.le_of_succ_le_succ hle))
    subst this
    rfl

theorem mem_load_data {d : List RawObsRow} {m : List MetaRow} {row : MergedRow} :
    row ∈ load_data d m ↔ ∃ r ∈ d, row ∈ mergeRow m r := by
  simp [load_data, List.mem_flatMap]

theorem label_lookup_det {d : List RawObsRow} {m : List MetaRow}
    (h : (m.map (fun x => x.INDICATOR_ID)).Nodup)
    {row1 row2 : MergedRow} (h1 : row1 ∈ load_data d m) (h2 : row2 ∈ load_data d m)
    (hid : row1.INDICATOR_ID = row2.INDICATOR_ID) :
    row1.INDICATOR_LABEL_EN = row2.INDICATOR_LABEL_EN := by
  obtain ⟨r1, _, hm1⟩ := mem_load_data.mp h1
  obtain ⟨r2, _, hm2⟩ := mem_load_data.mp h2
  have hk1 := (mem_mergeRow_fields hm1).1
  have hk2 := (mem_mergeRow_fields hm2).1
  rcases mergeRow_label hm1 with ⟨hn1, hno1⟩ | ⟨mr1, hmr1, hkey1, hl1⟩ <;>
    rcases mergeRow_label hm2 with ⟨hn2, hno2⟩ | ⟨mr2, hmr2, hkey2, hl2⟩
  · rw [hn1, hn2]
  · exact absurd (by rw [hkey2, ← hk2, ← hid, hk1]) (hno1 mr2 hmr2)
  · exact absurd (by rw [hkey1, ← hk1, hid, hk2]) (hno2 mr1 hmr1)
  · have : mr1 = mr2 := by
      refine List.inj_on_of_nodup_map h hmr1 hmr2 ?_
      show mr1.INDICATOR_ID = mr2.INDICATOR_ID
      rw [hkey1, hkey2, ← hk1, ← hk2, hid]
    rw [hl1, hl2, this]

end UIS

namespace UIS

theorem load_data_length {d : List RawObsRow} {m : List MetaRow}
    (h : (m.map (fun x => x.INDICATOR_ID)).Nodup) :
    (load_data d m).length = d.length := by
  induction d with
  | nil => rfl
  | cons r d ih =>
    rw [load_data, List.flatMap_cons, List.length_append, List.length_cons]
    have ih' : (d.flatMap (mergeRow m)).length = d.length := ih
    rw [mergeRow_length h, ih']
    omega

theorem pairs_fst_nodup {d : List RawObsRow} {m : List MetaRow} {code : String}
    (h : (m.map (fun x => x.INDICATOR_ID)).Nodup) :
    ((unique_indicators (load_data d m) code).map (fun p => p.1)).Nodup := by
  have hDD : (drop_duplicates
      ((filterByCountry (load_data d m) code).map
        (fun r => (r.INDICATOR_ID, r.INDICATOR_LABEL_EN)))).Nodup :=
    nodup_drop_duplicates _
  have hinj : ∀ p ∈ drop_duplicates
      ((filterByCountry (load_data d m) code).map
        (fun r => (r.INDICATOR_ID, r.INDICATOR_LABEL_EN))),
      ∀ q ∈ drop_duplicates
      ((filterByCountry (load_data d m) code).map
        (fun r => (r.INDICATOR_ID, r.INDICATOR_LABEL_EN))),
      (fun p : String × Option String => p.1) p =
        (fun p : String × Option String => p.1) q → p = q := by
    intro p hp q hq h1
    rw [mem_drop_duplicates] at hp hq
    obtain ⟨r1, hr1, hp1⟩ := List.mem_map.mp hp
    obtain ⟨r2, hr2, hq1⟩ := List.mem_map.mp hq
    have hr1' : r1 ∈ load_data d m := (List.mem_filter.mp hr1).1
    have hr2' : r2 ∈ load_data d m := (List.mem_filter.mp hr2).1
    have hfst : r1.INDICATOR_ID = r2.INDICATOR_ID := by
      have e1 : r1.INDICATOR_ID = p.1 := by rw [← hp1]
      have e2 : r2.INDICATOR_ID = q.1 := by rw [← hq1]
      rw [e1, e2]
      exact h1
    have hsnd := label_lookup_det h hr1' hr2' hfst
    rw [← hp1, ← hq1]
    exact Prod.ext hfst hsnd
  have hmap : ((drop_duplicates
      ((filterByCountry (load_data d m) code).map
        (fun r => (r.INDICATOR_ID, r.INDICATOR_LABEL_EN)))).map
        (fun p => p.1)).Nodup :=
    List.Nodup.map_on hinj hDD
  have hperm : (unique_indicators (load_data d m) code).Perm
      (drop_duplicates
        ((filterByCountry (load_data d m) code).map
          (fun r => (r.INDICATOR_ID, r.INDICATOR_LABEL_EN)))) :=
    List.perm_insertionSort _ _
  exact ((hperm.map (fun p => p.1)).nodup_iff).mpr hmap

end UIS

namespace UIS

/-- C1 (corrected): with the observation table `[⟨"A", ...⟩]` and a
metadata table holding two rows keyed "A", the left merge of `load_data`
yields two rows from one observation row, so the row count of the merged
table does not always equal the row count of the observation source. -/
theorem C1_counterexample :
    (load_data [⟨"A", "d", "USA", 2000, 1⟩]
        [⟨"A", "L1"⟩, ⟨"A", "L2"⟩]).length ≠
      ([⟨"A", "d", "USA", 2000, 1⟩] : List RawObsRow).length := by
  decide

/-- C1 (amended): provided the metadata table has at most one row per
`INDICATOR_ID`, the merged table returned by `load_data` has exactly as
many rows as the observation table; the left join preserves every
observation row, including rows whose indicator id matches no metadata
entry. -/
theorem C1_left_join_preserves_rowcount (d : List RawObsRow)
    (m : List MetaRow) (h : (m.map (fun x => x.INDICATOR_ID)).Nodup) :
    (load_data d m).length = d.length :=
  load_data_length h

/-- Witness for C1: the amended row-count equality at the concrete
tables `dTest`, `mTest`. -/
theorem C1_witness :
    ((mTest.map (fun x => x.INDICATOR_ID)).Nodup) ∧
      (load_data dTest mTest).length = dTest.length :=
  ⟨by decide, C1_left_join_preserves_rowcount dTest mTest (by decide)⟩

/-- C2: line 4 of `UIS_app.py` is the bare statement `pip install
plotly`, two adjacent plain identifiers that no valid Python line may
contain, so the module is rejected at line 4 and the load fails before
any statement — `load_data`, navigation or filtering — can execute. -/
theorem C2_module_rejected :
    lineRejected line4 = true ∧ firstBadLine moduleHead = some 4 ∧
      loadModule moduleHead = Except.error 4 :=
  ⟨rfl, rfl, rfl⟩

/-- C3: navigation starts at `home`; `goto "individual"` then back
returns to `home`; `goto "Nepal"` then back returns to `individual` via
the static parent map; and the back action on `home` leaves the state at
`home`. -/
theorem C3_navigation :
    initialPage = "home" ∧
      backAction (goto initialPage "individual") = some "home" ∧
      backAction (goto "individual" "Nepal") = some "individual" ∧
      backAction "home" = some "home" := by
  decide

/-- C4: `filterByCountry` returns exactly the rows whose `country_id`
equals the given code; the derived indicator-option list is sorted
ascending by `INDICATOR_ID`; and on a table produced by `load_data` from
metadata with one row per indicator id, the option list contains no
duplicate indicator ids. -/
theorem C4_filterByCountry_options (table : List MergedRow) (code : String)
    (d : List RawObsRow) (m : List MetaRow)
    (h : (m.map (fun x => x.INDICATOR_ID)).Nodup) :
    (∀ r : MergedRow,
      r ∈ filterByCountry table code ↔ r ∈ table ∧ r.country_id = code) ∧
    List.Sorted (fun a b => a.1 ≤ b.1) (unique_indicators table code) ∧
    ((unique_indicators (load_data d m) code).map (fun p => p.1)).Nodup := by
  refine ⟨?_, ?_, pairs_fst_nodup h⟩
  · intro r
    simp [filterByCountry, List.mem_filter]
  · exact List.sorted_insertionSort _ _

/-- Witness for C4: the concrete tables `dTest`, `mTest` with country
code "NPL". -/
theorem C4_witness :
    (⟨"NER.02.CP", "NPL", 2010, (10 : ℚ), some "Net enrolment"⟩ :
        MergedRow) ∈ filterByCountry (load_data dTest mTest) "NPL" ∧
    List.Sorted (fun a b => a.1 ≤ b.1)
      (unique_indicators (load_data dTest mTest) "NPL") ∧
    ((unique_indicators (load_data dTest mTest) "NPL").map
      (fun p => p.1)).Nodup := by
  have h := C4_filterByCountry_options (load_data dTest mTest) "NPL"
    dTest mTest (by decide)
  exact ⟨(h.1 _).mpr ⟨by decide, rfl⟩, h.2.1, h.2.2⟩

/-- C5: `filterByIndicator` returns exactly the rows of the table whose
`INDICATOR_ID` equals the given id, with exact duplicate rows collapsed
to one; and every row of a `load_data` table carries the upper-cased,
stripped normalization of some source row's indicator id. -/
theorem C5_filterByIndicator (table : List MergedRow) (indicatorId : String)
    (d : List RawObsRow) (m : List MetaRow) :
    (∀ r : MergedRow, r ∈ filterByIndicator table indicatorId ↔
      r ∈ table ∧ r.INDICATOR_ID = indicatorId) ∧
    (filterByIndicator table indicatorId).Nodup ∧
    (∀ row ∈ load_data d m, ∃ raw ∈ d,
      row.INDICATOR_ID = pyUpperStrip raw.indicator_id) := by
  refine ⟨?_, nodup_drop_duplicates _, ?_⟩
  · intro r
    rw [filterByIndicator, mem_drop_duplicates]
    simp [List.mem_filter]
  · intro row hrow
    obtain ⟨raw, hraw, hm⟩ := mem_load_data.mp hrow
    exact ⟨raw, hraw, (mem_mergeRow_fields hm).1⟩

/-- Witness for C5: filtering the concrete merged table for
"NER.02.CP". -/
theorem C5_witness :
    ((⟨"NER.02.CP", "NPL", 2010, (10 : ℚ), some "Net enrolment"⟩ :
        MergedRow) ∈
      filterByIndicator (load_data dTest mTest) "NER.02.CP") ∧
    (filterByIndicator (load_data dTest mTest) "NER.02.CP").Nodup := by
  have h := C5_filterByIndicator (load_data dTest mTest) "NER.02.CP"
    dTest mTest
  exact ⟨(h.1 _).mpr ⟨by decide, rfl⟩, h.2.1⟩

/-- C6: with one metadata row per indicator id, every observation row
survives the merge with its normalized id and original fields; a merged
row whose id matches a metadata entry carries that entry's label wrapped
in `some`; and a merged row whose id matches no metadata entry carries
label `none`. -/
theorem C6_labels (d : List RawObsRow) (m : List MetaRow)
    (h : (m.map (fun x => x.INDICATOR_ID)).Nodup) :
    (∀ raw ∈ d, ∃ row ∈ load_data d m,
      row.INDICATOR_ID = pyUpperStrip raw.indicator_id ∧
      row.country_id = raw.country_id ∧ row.year = raw.year ∧
      row.value = raw.value) ∧
    (∀ row ∈ load_data d m, ∀ mr ∈ m,
      mr.INDICATOR_ID = row.INDICATOR_ID →
      row.INDICATOR_LABEL_EN = some mr.INDICATOR_LABEL_EN) ∧
    (∀ row ∈ load_data d m,
      (∀ mr ∈ m, mr.INDICATOR_ID ≠ row.INDICATOR_ID) →
      row.INDICATOR_LABEL_EN = none) := by
  refine ⟨?_, ?_, ?_⟩
  · intro raw hraw
    obtain ⟨row, hrow, hfields⟩ := mergeRow_exists m raw
    exact ⟨row, mem_load_data.mpr ⟨raw, hraw, hrow⟩, hfields⟩
  · intro row hrow mr hmr hid
    obtain ⟨r, hr, hm⟩ := mem_load_data.mp hrow
    have hk := (mem_mergeRow_fields hm).1
    rcases mergeRow_label hm with ⟨hnone, hno⟩ | ⟨mr', hmr', hkey', hl'⟩
    · exact absurd (by rw [hid, hk]) (hno mr hmr)
    · have hmm : mr = mr' :=
        List.inj_on_of_nodup_map h hmr hmr' (by rw [hid, hk, hkey'])
      rw [hl', hmm]
  · intro row hrow hno
    obtain ⟨r, hr, hm⟩ := mem_load_data.mp hrow
    have hk := (mem_mergeRow_fields hm).1
    rcases mergeRow_label hm with ⟨hnone, _⟩ | ⟨mr', hmr', hkey', _⟩
    · exact hnone
    · exact absurd (by rw [hkey', ← hk]) (hno mr' hmr')

/-- Witness for C6: the concrete tables `dTest`, `mTest` — the matched
row "NER.02.CP" carries `some "Net enrolment"`, the unmatched row "ZZZ"
is present with label `none`. -/
theorem C6_witness :
    (∃ row ∈ load_data dTest mTest,
      row.INDICATOR_ID = pyUpperStrip " ner.02.cp " ∧
      row.country_id = "NPL" ∧ row.year = 2010 ∧ row.value = 10) ∧
    (⟨"NER.02.CP", "NPL", 2010, (10 : ℚ), some "Net enrolment"⟩ :
        MergedRow).INDICATOR_LABEL_EN = some "Net enrolment" ∧
    (⟨"ZZZ", "NPL", 2012, (7 : ℚ), none⟩ :
        MergedRow).INDICATOR_LABEL_EN = none := by
  have h := C6_labels dTest mTest (by decide)
  refine ⟨h.1 ⟨" ner.02.cp ", "desc", "NPL", 2010, 10⟩ (by decide), ?_, ?_⟩
  · exact h.2.1 _ (by decide) ⟨"NER.02.CP", "Net enrolment"⟩ (by decide) rfl
  · exact h.2.2 _ (by decide) (by decide)

/-- C7: grouping `[(2010, "USA", 10), (2010, "USA", 20), (2011, "USA",
5)]` by `(year, country_id)` and averaging `value` yields `[(2010,
"USA", 15), (2011, "USA", 5)]`; and whenever a group key has exactly one
row, the aggregation yields that row's value unchanged. -/
theorem C7_bar_mean :
    df_bar [⟨"X", "USA", 2010, 10, none⟩, ⟨"X", "USA", 2010, 20, none⟩,
        ⟨"X", "USA", 2011, 5, none⟩] =
      [(2010, "USA", (15 : ℚ)), (2011, "USA", (5 : ℚ))] ∧
    (∀ rows : List MergedRow, ∀ k : Int × String, ∀ r : MergedRow,
      rows.filter (fun x => (x.year, x.country_id) == k) = [r] →
      (k.1, k.2, r.value) ∈ df_bar rows) := by
  constructor
  · have h1 : groupKeys [⟨"X", "USA", 2010, 10, none⟩,
        ⟨"X", "USA", 2010, 20, none⟩, ⟨"X", "USA", 2011, 5, none⟩] =
        [(2010, "USA"), (2011, "USA")] := rfl
    have h2 : valuesFor [⟨"X", "USA", 2010, 10, none⟩,
        ⟨"X", "USA", 2010, 20, none⟩, ⟨"X", "USA", 2011, 5, none⟩]
        (2010, "USA") = [10, 20] := rfl
    have h3 : valuesFor [⟨"X", "USA", 2010, 10, none⟩,
        ⟨"X", "USA", 2010, 20, none⟩, ⟨"X", "USA", 2011, 5, none⟩]
        (2011, "USA") = [5] := rfl
    simp only [df_bar, h1, List.map_cons, List.map_nil, h2, h3]
    norm_num [mean]
  · intro rows k r hfilter
    have hrf : r ∈ rows.filter (fun x => (x.year, x.country_id) == k) := by
      rw [hfilter]
      exact List.mem_singleton.mpr rfl
    have hr := List.mem_filter.mp hrf
    have hk : (r.year, r.country_id) = k := by simpa using hr.2
    have hkeys : k ∈ groupKeys rows := by
      rw [groupKeys, List.mem_insertionSort, mem_drop_duplicates]
      exact List.mem_map.mpr ⟨r, hr.1, hk⟩
    have hvals : valuesFor rows k = [r.value] := by
      rw [valuesFor, hfilter]
      rfl
    have hmean : mean (valuesFor rows k) = r.value := by
      rw [hvals, mean]
      simp
    rw [df_bar]
    exact List.mem_map.mpr ⟨k, hkeys, by rw [hmean]⟩

/-- Witness for C7: a concrete two-row table where the key `(2011,
"USA")` has exactly one row, whose value 5 survives unchanged. -/
theorem C7_witness :
    ([⟨"X", "USA", 2010, (10 : ℚ), none⟩, ⟨"X", "USA", 2011, 5, none⟩] :
        List MergedRow).filter
      (fun x => (x.year, x.country_id) == ((2011 : Int), "USA")) =
      [⟨"X", "USA", 2011, 5, none⟩] ∧
    ((2011 : Int), "USA", (5 : ℚ)) ∈
      df_bar [⟨"X", "USA", 2010, 10, none⟩, ⟨"X", "USA", 2011, 5, none⟩] := by
  refine ⟨rfl, ?_⟩
  exact C7_bar_mean.2 _ ((2011 : Int), "USA") ⟨"X", "USA", 2011, 5, none⟩ rfl

/-- C8: on an individual-country page an empty indicator selection
yields the warning branch (`noSelection`, the `st.warning` plus `return
None` path) and no chart is handed to the renderer. -/
theorem C8_empty_selection (table : List MergedRow) (code : String) :
    create_line_chart_with_selection table code [] =
      ChartResult.noSelection ∧
    show_nepal table [] = none :=
  ⟨rfl, rfl⟩

/-- C9 (counterexample): setting the page to "bogus" — not in the fixed
page set — succeeds silently: `goto` stores it unchanged and the
dispatch chain of `main` selects no handler and raises no error, so no
unknown-page failure occurs. -/
theorem C9_counterexample :
    goto "home" "bogus" = "bogus" ∧
      knownPages.contains "bogus" = false ∧ dispatch "bogus" = none := by
  decide

/-- C9 (amended): `goto` sets the current page unconditionally with no
validation; a page value outside the fixed set is silently accepted, and
`main`'s dispatch chain simply renders no page for it (and raises no
error). -/
theorem C9_goto_accepts_any_page (cur p : String) :
    goto cur p = p ∧
      (dispatch p = none ↔ knownPages.contains p = false) := by
  refine ⟨rfl, ?_⟩
  by_cases h1 : p = "home"
  · subst h1; decide
  by_cases h2 : p = "individual"
  · subst h2; decide
  by_cases h3 : p = "cross"
  · subst h3; decide
  by_cases h4 : p = "Nepal"
  · subst h4; decide
  by_cases h5 : p = "Estonia"
  · subst h5; decide
  by_cases h6 : p = "Sierra Leone"
  · subst h6; decide
  by_cases h7 : p = "USA"
  · subst h7; decide
  simp [dispatch, knownPages, h1, h2, h3, h4, h5, h6, h7]

/-- C10: the query operations — country filter, indicator-option
derivation, indicator filter, and the bar aggregation — are pure reads:
each returns the session state, merged table included, unchanged. -/
theorem C10_queries_are_pure_reads (s : AppState)
    (code indicatorId : String) :
    (filterByCountryOp code s).2 = s ∧
    (uniqueIndicatorsOp code s).2 = s ∧
    (filterByIndicatorOp indicatorId s).2 = s ∧
    (barAggregationOp indicatorId s).2 = s :=
  ⟨rfl, rfl, rfl, rfl⟩

end UIS
